import Mathlib

/-!
# Shallow embedding of the `tc-build` build-orchestration scripts

This file embeds, in Lean, the parts of the ClangBuiltLinux `tc-build`
repository that the verified properties below are about:

* `tc_build/source.py`   — `Tarball.download` (checksum-verified download)
* `tc_build/kernel.py`   — `LinuxSourceManager.prepare` (patch application)
                           and `S390KernelBuilder.build` (version gate)
* `tc_build/builder.py`, `tc_build/rust.py` — `RustBuilder.configure`
* `tc_build/llvm.py`     — `LLVMBuilder.host_target`, `can_use_perf`,
                           `bolt_clang`, `build`
* `build-llvm.py`        — the multi-stage PGO/BOLT pipeline
                           (`get_final_stage`, `stage_specific_cmake_defines`,
                           `do_multistage_build`, `can_use_perf`, `do_bolt`,
                           `invoke_ninja`), `linker_test`/`check_cc_ld_variables`,
                           and `get_host_llvm_target`
* `build-binutils.py`    — `host_arch_target`, `target_arch`, `create_targets`

The scripts are thin orchestration layers: they compute strings and
dictionaries of build-system defines and shell out.  The embedding therefore
represents the pure data-flow exactly (dictionaries as insertion-ordered
association lists, Python string membership as substring search, tuple
comparison as lexicographic comparison) and represents interactions with the
outside world (what is on `PATH`, what a probe subprocess returned, what a
downloaded file hashes to) as explicit oracle parameters.  Side effects that
the scripts perform (running a subprocess, printing, moving a file) are
reified as events in the order the code performs them, so that temporal
properties ("X happens only after Y") become statements about event lists.

Python exceptions are modelled with `Except`: a raised exception is an
`Except.error` carrying the exception's type and payload.  Python evaluates
the argument expressions of `raise SomeError(f"...")` *before* the exception
object is constructed, and reading a missing attribute during that evaluation
raises `AttributeError` instead; the embedding models attribute/method lookup
against the literal list of names that the class bodies and `__init__`
methods define, so that this behaviour is derived rather than assumed.
-/

deriving instance DecidableEq for Except

namespace TcBuild

/-- Python exception values, as far as the embedded code can raise them. -/
inductive PyErr where
  | runtimeError (msg : String)
  | attributeError (attr : String)
  | keyError (key : String)
  | calledProcessError (returncode : Nat) (stdout : String)
  | notImplementedError
  deriving DecidableEq, Repr

/-- Boolean list prefix test (structural, so that it evaluates by kernel
reduction). -/
def listIsPrefixOf : List Char → List Char → Bool
  | [], _ => true
  | _ :: _, [] => false
  | a :: as, b :: bs => a == b && listIsPrefixOf as bs

/-- Does `needle` occur as a contiguous sublist of the second argument? -/
def hasSubstr (needle : List Char) : List Char → Bool
  | [] => listIsPrefixOf needle []
  | c :: rest => listIsPrefixOf needle (c :: rest) || hasSubstr needle rest

/-- Python's `needle in hay` on strings: substring containment. -/
def strContains (hay needle : String) : Bool :=
  hasSubstr needle.toList hay.toList

/-- Python's `str.endswith(suffix)`. -/
def strEndsWith (s suffix : String) : Bool :=
  listIsPrefixOf suffix.toList.reverse s.toList.reverse

/-- Split a character list at every occurrence of `sep` (the separator is
dropped); always returns at least one piece, like Python's `str.split(sep)`. -/
def splitOnChar (sep : Char) : List Char → List (List Char)
  | [] => [[]]
  | c :: rest =>
    let r := splitOnChar sep rest
    if c == sep then [] :: r
    else
      match r with
      | [] => [[c]]
      | h :: t => (c :: h) :: t

/-- Python dictionaries with string keys and values, kept in insertion order
(as CPython does). -/
abbrev Dict := List (String × String)

/-- Python `d[k] = v`: overwrite in place if the key exists, else append. -/
def dictSet (d : Dict) (k v : String) : Dict :=
  if d.any (·.1 == k) then d.map fun p => if p.1 == k then (k, v) else p
  else d ++ [(k, v)]

/-- Python `d.get(k)` / `d[k]` read side: the value of the first (in a
well-formed dict: only) entry with the requested key. -/
def dictGet (d : Dict) (k : String) : Option String :=
  match d with
  | [] => none
  | (a, b) :: t => if a == k then some b else dictGet t k

/-- Python `dict.update(other)`: assign every pair of `other` in order. -/
def dictUpdate (d other : Dict) : Dict :=
  other.foldl (fun acc p => dictSet acc p.1 p.2) d

/-- Python `str.strip()` (no argument): remove leading and trailing
whitespace. -/
def pyStrip (s : String) : String :=
  String.mk (((s.toList.dropWhile Char.isWhitespace).reverse.dropWhile
    Char.isWhitespace).reverse)

/-! ## `tc_build/source.py` — `Tarball` -/

/-- The outcome of one finished subprocess: its exit status and captured
standard output (`subprocess.run(..., capture_output=True, text=True)`). -/
structure CmdResult where
  returncode : Nat
  stdout : String
  deriving DecidableEq, Repr

/-- The attributes a `Tarball` object has: exactly the names assigned in
`Tarball.__init__` (`tc_build/source.py` lines 17–21).  Python resolves
`self.<name>` against this set; any other name raises `AttributeError`. -/
def Tarball.instanceAttrs : List String :=
  ["base_download_url", "local_location", "remote_tarball_name", "remote_checksum_name"]

/-- A `Tarball` object after `__init__` plus any caller-made assignments to
its four attributes.  `None` becomes `none`; the checksum name starts as the
empty (falsy) string. -/
structure Tarball where
  base_download_url : Option String := none
  local_location : Option String := none
  remote_tarball_name : Option String := none
  remote_checksum_name : String := ""
  deriving DecidableEq, Repr

/-- `[0-9a-f]` of the checksum regex. -/
def isHexDigit (c : Char) : Bool :=
  c.isDigit || ('a' ≤ c && c ≤ 'f')

/-- One line of the checksum file matched against
`([0-9a-f]+)\s+<name>$` (`re.M` makes `$` the end of the line): the line must
end with `<name>`, preceded by at least one whitespace character, preceded by
at least one hex digit; the captured group is the maximal hex run adjacent to
that whitespace. -/
def lineChecksumFor (name line : String) : Option String :=
  if strEndsWith line name then
    let rrev := (line.toList.reverse).drop name.toList.length
    let ws := rrev.takeWhile Char.isWhitespace
    let hex := (rrev.dropWhile Char.isWhitespace).takeWhile isHexDigit
    if !ws.isEmpty && !hex.isEmpty then some (String.mk hex.reverse) else none
  else none

/-- `re.search(fr"([0-9a-f]+)\s+{name}$", checksums, flags=re.M)` over the
checksum file represented as its list of lines: the first line that matches
yields the captured hex group. -/
def searchChecksum (name : String) (lines : List String) : Option String :=
  lines.findSome? (lineChecksumFor name)

/-- The world `Tarball.download` interacts with: whether the local file
already exists, the lines served for the checksum file, and the hex digests
of the downloaded tarball. -/
structure DownloadEnv where
  local_exists : Bool
  checksum_lines : List String
  file_sha256 : String
  file_sha512 : String
  deriving Repr

/-- Python `Path.name`: the final path component. -/
def pathName (p : String) : String :=
  String.mk ((splitOnChar (Char.ofNat 47) p.toList).getLastD [])

/-- `Tarball.download` (`tc_build/source.py` lines 23–63).  Returns `.ok`
when the Python method returns and `.error e` when it raises `e`.  The
mismatch branch executes `raise RuntimeError(f"Computed checksum of
{self.local_destination} ...")`: the f-string is evaluated first, and
`local_destination` is looked up among `Tarball.instanceAttrs`. -/
def Tarball.download (t : Tarball) (env : DownloadEnv) : Except PyErr Unit := do
  match t.local_location with
  | none => throw (.runtimeError "No local tarball location specified?")
  | some loc =>
    if env.local_exists then
      return ()  -- Already downloaded
    match t.base_download_url with
    | none => throw (.runtimeError "No tarball download URL specified?")
    | some _base =>
      let remote_name := t.remote_tarball_name.getD (pathName loc)
      -- tc_build.utils.curl(full_url, destination=self.local_location)
      if t.remote_checksum_name ≠ "" then
        match searchChecksum remote_name env.checksum_lines with
        | none => throw (.runtimeError "Could not find checksum for tarball?")
        | some expected_checksum =>
          let computed_checksum ←
            if strContains t.remote_checksum_name "sha256" then
              pure env.file_sha256
            else if strContains t.remote_checksum_name "sha512" then
              pure env.file_sha512
            else
              throw (.runtimeError "No supported hashlib, add support for it?")
          if computed_checksum ≠ expected_checksum then
            if "local_destination" ∈ Tarball.instanceAttrs then
              throw (.runtimeError "Computed checksum differs from expected checksum, remove it and try again?")
            else
              throw (.attributeError "local_destination")
          else
            return ()
      else
        return ()

/-! ## `tc_build/kernel.py` — `LinuxSourceManager` and `S390KernelBuilder` -/

/-- The observable actions of `LinuxSourceManager.prepare`
(`tc_build/kernel.py` lines 465–497). -/
inductive PrepEvent where
  | removedSourceTree
  | extracted
  | patchWarning (patch : String)
  | patchApplied (patch : String)
  | prepared
  deriving DecidableEq, Repr

/-- The string `prepare` looks for in the stdout of a failed `patch`
invocation. -/
def reversedPatchMsg : String :=
  "Reversed (or previously applied) patch detected"

/-- The patch-application loop of `LinuxSourceManager.prepare`
(`tc_build/kernel.py` lines 473–495).  Each patch is paired with the outcome
its `patch --forward` subprocess would produce.  `subprocess.run(...,
check=True)` raises `CalledProcessError` on a non-zero exit status; the
`except` clause turns the failure into a warning and continues when the
captured stdout reports an already-applied patch, and re-raises otherwise;
the `else` clause of the `try` prints the applied message. -/
def LinuxSourceManager.applyPatches :
    List (String × CmdResult) → Except PyErr (List PrepEvent)
  | [] => .ok []
  | (patch, res) :: rest =>
    if res.returncode ≠ 0 then
      if strContains res.stdout reversedPatchMsg then
        match LinuxSourceManager.applyPatches rest with
        | .ok evs => .ok (.patchWarning patch :: evs)
        | .error e => .error e
      else
        .error (.calledProcessError res.returncode res.stdout)
    else
      match LinuxSourceManager.applyPatches rest with
      | .ok evs => .ok (.patchApplied patch :: evs)
      | .error e => .error e

/-- What `LinuxSourceManager.prepare` finds in the world: the tarball object
and download environment, and whether the source location already exists. -/
structure PrepareEnv where
  tarball : Tarball
  download_env : DownloadEnv
  location_exists : Bool

/-- `LinuxSourceManager.prepare` (`tc_build/kernel.py` lines 465–497):
download the tarball, remove the source tree when patches are configured,
extract when the location is missing, then apply each patch in order. -/
def LinuxSourceManager.prepare (env : PrepareEnv)
    (patches : List (String × CmdResult)) : Except PyErr (List PrepEvent) :=
  match env.tarball.download env.download_env with
  | .error e => .error e
  | .ok () =>
    let rmEvents : List PrepEvent :=
      if !patches.isEmpty then [.removedSourceTree] else []
    let existsAfter := if !patches.isEmpty then false else env.location_exists
    let extractEvents : List PrepEvent :=
      if !existsAfter then [.extracted] else []
    match LinuxSourceManager.applyPatches patches with
    | .error e => .error e
    | .ok evs => .ok (rmEvents ++ extractEvents ++ evs ++ [.prepared])

/-- Python `<=` on 3-tuples of integers: lexicographic comparison. -/
def pyTupleLe (a b : Nat × Nat × Nat) : Bool :=
  a.1 < b.1 || (a.1 == b.1 && (a.2.1 < b.2.1 || (a.2.1 == b.2.1 && a.2.2 ≤ b.2.2)))

/-- The observable outcome of `S390KernelBuilder.build`. -/
inductive S390Event where
  | skipWarning (msg : String)
  | kernelBuild
  deriving DecidableEq, Repr

/-- The warning `S390KernelBuilder.build` prints when it skips the build. -/
def s390SkipWarning : String :=
  "s390 does not build with LLVM < 15.0.0, skipping build..."

/-- `S390KernelBuilder.build` (`tc_build/kernel.py` lines 306–330) reduced to
its version gate on `self.get_toolchain_version()`: when the toolchain
version compares `<=` `(15, 0, 0)` (Python tuple comparison), print the
warning and return without building; otherwise fall through into the body
that sets up `gnu_vars` and runs the kernel `make` via `super().build()`,
collapsed here into the single `kernelBuild` event. -/
def S390KernelBuilder.build (toolchain_version : Nat × Nat × Nat) : List S390Event :=
  if pyTupleLe toolchain_version (15, 0, 0) then [.skipWarning s390SkipWarning]
  else [.kernelBuild]

/-! ## `tc_build/builder.py` and `tc_build/rust.py` — `RustBuilder` -/

/-- The method names the class body of `Builder` defines
(`tc_build/builder.py` lines 16–39). -/
def Builder.methodNames : List String :=
  ["build", "clean_build_folder", "run_cmd"]

/-- The method names the class body of `RustBuilder` defines
(`tc_build/rust.py` lines 12–97). -/
def RustBuilder.methodNames : List String :=
  ["build", "configure", "show_install_info"]

/-- Python method resolution for a `RustBuilder` instance: its own class
body first, then its only base class `Builder` (`object` contributes none of
the names the code uses).  `__init__` assigns only data attributes
(`folders`, `show_commands`, `llvm_install_folder`, `debug`,
`vendor_string`), so `self.<name>()` resolves against this list and raises
`AttributeError` for any other name. -/
def RustBuilder.resolvedMethods : List String :=
  RustBuilder.methodNames ++ Builder.methodNames

/-- The state of a `RustBuilder` object that `configure` reads:
`Builder.__init__` creates `self.folders = Folders()` (all three `None`) and
`RustBuilder.__init__` adds `llvm_install_folder = None`, `debug = False`,
`vendor_string = ''`. -/
structure RustBuilderState where
  llvm_install_folder : Option String := none
  folders_source : Option String := none
  folders_build : Option String := none
  folders_install : Option String := none
  debug : Bool := false
  vendor_string : String := ""
  deriving DecidableEq, Repr

/-- The observable actions of `RustBuilder.configure`. -/
inductive RustEvent where
  | cleanedBuildFolder
  | madeBuildFolder
  | ranConfigure (cmd : List String)
  deriving DecidableEq, Repr

/-- The `configure_cmd` list built by `RustBuilder.configure`
(`tc_build/rust.py` lines 48–67). -/
def RustBuilder.configureCmd (s : RustBuilderState) : List String :=
  let install_folder := s.folders_install.getD (s.folders_build.getD "")
  let base :=
    [s.folders_source.getD "" ++ "/configure",
     "--release-description", s.vendor_string,
     "--disable-docs",
     "--enable-locked-deps",
     "--enable-verbose-configure",
     "--tools", "cargo,clippy,rustdoc,rustfmt,src",
     "--prefix", install_folder,
     "--sysconfdir", "etc",
     "--disable-codegen-tests",
     "--disable-lld",
     "--disable-llvm-bitcode-linker",
     "--llvm-root", s.llvm_install_folder.getD ""]
  if s.debug then base ++ ["--enable-debug"] else base

/-- `RustBuilder.configure` (`tc_build/rust.py` lines 35–70): three
precondition checks, construction of `configure_cmd`, then
`self.clean_build_folder()` (defined on `Builder`; its own guard cannot fire
here because the build folder is set), then `self.make_build_folder()` —
a name resolved against `RustBuilder.resolvedMethods` — and finally
`self.run_cmd(configure_cmd, cwd=self.folders.build)`. -/
def RustBuilder.configure (s : RustBuilderState) : Except PyErr (List RustEvent) :=
  if s.llvm_install_folder.isNone then
    .error (.runtimeError "No LLVM install folder set?")
  else if s.folders_source.isNone then
    .error (.runtimeError "No source folder set?")
  else if s.folders_build.isNone then
    .error (.runtimeError "No build folder set?")
  else
    let cmd := RustBuilder.configureCmd s
    -- self.clean_build_folder(): folders.build is set, so no RuntimeError
    if "make_build_folder" ∈ RustBuilder.resolvedMethods then
      .ok [.cleanedBuildFolder, .madeBuildFolder, .ranConfigure cmd]
    else
      .error (.attributeError "make_build_folder")

/-! ## `build-binutils.py` — target mapping -/

/-- The `host_mapping` dictionary of `host_arch_target`
(`build-binutils.py` lines 88–93). -/
def binutilsHostMapping : Dict :=
  [("armv7l", "arm"),
   ("ppc64", "powerpc64"),
   ("ppc64le", "powerpc64le"),
   ("ppc", "powerpc")]

/-- `host_arch_target` (`build-binutils.py` lines 83–95):
`host_mapping.get(machine, machine)` where `machine = platform.machine()`. -/
def host_arch_target (machine : String) : String :=
  (dictGet binutilsHostMapping machine).getD machine

/-- `target_arch` (`build-binutils.py` lines 98–104):
`target.split("-")[0]`. -/
def target_arch (target : String) : String :=
  String.mk ((splitOnChar (Char.ofNat 45) target.toList).headD [])

/-- The `targets_dict` of `create_targets` (`build-binutils.py` lines
185–196), in source order. -/
def targets_dict : Dict :=
  [("arm", "arm-linux-gnueabi"),
   ("aarch64", "aarch64-linux-gnu"),
   ("mips", "mips-linux-gnu"),
   ("mipsel", "mipsel-linux-gnu"),
   ("powerpc64", "powerpc64-linux-gnu"),
   ("powerpc64le", "powerpc64le-linux-gnu"),
   ("powerpc", "powerpc-linux-gnu"),
   ("riscv64", "riscv64-linux-gnu"),
   ("s390x", "s390x-linux-gnu"),
   ("x86_64", "x86_64-linux-gnu")]

/-- Add an element to a list used as a Python `set` (ignore duplicates).
CPython's `set` iteration order is unspecified, so theorems about
`create_targets` without `"all"` are stated up to membership. -/
def setAdd (s : List String) (x : String) : List String :=
  if x ∈ s then s else s ++ [x]

/-- The loop of `create_targets` (`build-binutils.py` lines 198–208) over the
remaining requested targets, with the accumulated `targets_set`.
Encountering `"all"` returns `list(targets_dict.values())` immediately;
`"host"` resolves through `host_arch_target()`; anything else is reduced to
its first dash-separated component; a key absent from `targets_dict` raises
`KeyError`. -/
def createTargetsLoop (machine : String) :
    List String → List String → Except PyErr (List String)
  | [], acc => .ok acc
  | t :: ts, acc =>
    if t = "all" then .ok (targets_dict.map Prod.snd)
    else
      let key := if t = "host" then host_arch_target machine else target_arch t
      match dictGet targets_dict key with
      | some triple => createTargetsLoop machine ts (setAdd acc triple)
      | none => .error (.keyError key)

/-- `create_targets` (`build-binutils.py` lines 179–208), with
`platform.machine()` supplied as a parameter. -/
def create_targets (machine : String) (targets : List String) :
    Except PyErr (List String) :=
  createTargetsLoop machine targets []

/-! ## The two uname → LLVM-target tables (`build-llvm.py` and
`tc_build/llvm.py`) -/

/-- The `host_mapping` dictionary of `get_host_llvm_target`
(`build-llvm.py` lines 1271–1284), in source order. -/
def hostLlvmMappingFlat : Dict :=
  [("aarch64", "AArch64"),
   ("armv7l", "ARM"),
   ("i386", "X86"),
   ("mips", "Mips"),
   ("mips64", "Mips"),
   ("ppc", "PowerPC"),
   ("ppc64", "PowerPC"),
   ("ppc64le", "PowerPC"),
   ("riscv32", "RISCV"),
   ("riscv64", "RISCV"),
   ("s390x", "SystemZ"),
   ("x86_64", "X86")]

/-- `get_host_llvm_target` (`build-llvm.py` lines 1266–1285):
`host_mapping.get(platform.machine())`. -/
def get_host_llvm_target (machine : String) : Option String :=
  dictGet hostLlvmMappingFlat machine

/-- The `uname_to_llvm` dictionary of `LLVMBuilder.host_target`
(`tc_build/llvm.py` lines 478–491), in source order. -/
def hostLlvmMappingClass : Dict :=
  [("aarch64", "AArch64"),
   ("armv7l", "ARM"),
   ("i386", "X86"),
   ("mips", "Mips"),
   ("mips64", "Mips"),
   ("ppc", "PowerPC"),
   ("ppc64", "PowerPC"),
   ("ppc64le", "PowerPC"),
   ("riscv32", "RISCV"),
   ("riscv64", "RISCV"),
   ("s390x", "SystemZ"),
   ("x86_64", "X86")]

/-- `LLVMBuilder.host_target` (`tc_build/llvm.py` lines 477–492):
`uname_to_llvm.get(platform.machine())`. -/
def LLVMBuilder.host_target (machine : String) : Option String :=
  dictGet hostLlvmMappingClass machine

/-! ## `tc_build/llvm.py` — `LLVMBuilder.can_use_perf`, `bolt_clang`,
`build` -/

/-- What the BOLT machinery finds in the world: whether `perf` is on `PATH`,
whether the probe `perf record --branch-filter any,u --event cycles:u`
exits zero, and the facts `bolt_clang` reads from the LLVM source tree. -/
structure BoltEnv where
  perf_on_path : Bool
  perf_record_ok : Bool
  apple_silicon : Bool := false
  multicall : Bool := false
  readme_has_cache_plus : Bool := true
  readme_has_sf2 : Bool := false
  cmd_ref_exists : Bool := false
  cmd_ref_has_icf_value : Bool := false
  hfsortplus_exists : Bool := true
  deriving DecidableEq, Repr

/-- `LLVMBuilder.can_use_perf` (`tc_build/llvm.py` lines 230–247): `perf`
must be found by `shutil.which` and the probe `perf record` subprocess
(run with `check=True`) must not raise; any `CalledProcessError` falls
through to `False`. -/
def LLVMBuilder.can_use_perf (env : BoltEnv) : Bool :=
  env.perf_on_path && env.perf_record_ok

/-- The two BOLT profile-collection modes. -/
inductive BoltMode where
  | sampling
  | instrumentation
  deriving DecidableEq, Repr

/-- The mode chosen at the top of `LLVMBuilder.bolt_clang`
(`tc_build/llvm.py` lines 69–77): instrumentation by default, switched to
sampling exactly when `can_use_perf()` returns true. -/
def LLVMBuilder.boltMode (env : BoltEnv) : BoltMode :=
  if LLVMBuilder.can_use_perf env then .sampling else .instrumentation

/-- The observable actions of `LLVMBuilder.bolt_clang`, in program order. -/
inductive BoltEvent where
  | printHeader (mode : BoltMode)
  | instrumentBinary
  | shuffleForBuild
  | setBoltInstrumentation
  | setSamplingOutput
  | runWorkload
  | unshuffle
  | mergeFdata
  | perf2bolt
  | optimize
  | replaceBinary
  | unlinkInstBinary
  deriving DecidableEq, Repr

/-- `LLVMBuilder.bolt_clang` (`tc_build/llvm.py` lines 69–200) as its event
trace: choose the mode; in instrumentation mode instrument the binary with
`llvm-bolt --instrument --instrumentation-file-append-pid` (and either
shuffle the multicall binary or point the kernel builder's `CC` at the
instrumented clang); run the kernel-build workload; in instrumentation mode
merge the per-PID `.fdata` profiles with `merge-fdata`, in sampling mode
convert the `perf.data` with `perf2bolt`; optimize with `llvm-bolt --data=`;
move the optimized binary over the original (`bolt_binary.replace(
real_binary)`); in instrumentation mode remove the instrumented binary. -/
def LLVMBuilder.bolt_clang (env : BoltEnv) : List BoltEvent :=
  let mode := LLVMBuilder.boltMode env
  [.printHeader mode]
    ++ (if mode = .instrumentation then
          [.instrumentBinary]
            ++ (if env.multicall then [.shuffleForBuild] else [.setBoltInstrumentation])
        else [])
    ++ (if mode = .sampling then [.setSamplingOutput] else [])
    ++ [.runWorkload]
    ++ (if mode = .instrumentation then
          (if env.multicall then [.unshuffle] else []) ++ [.mergeFdata]
        else [])
    ++ (if mode = .sampling then [.perf2bolt] else [])
    ++ [.optimize, .replaceBinary]
    ++ (if mode = .instrumentation then [.unlinkInstBinary] else [])

/-- The state of an `LLVMBuilder` object that `build()` reads, with the
defaults `__init__` assigns. -/
structure LLVMBuildState where
  folders_build : Option String := none
  folders_install : Option String := none
  build_ninja_exists : Bool := false
  bolt : Bool := false
  bolt_builder_set : Bool := false
  build_targets : List String := ["all"]
  check_targets : List String := []
  install_targets : List String := []
  deriving DecidableEq, Repr

/-- The observable actions of `LLVMBuilder.build`, in program order. -/
inductive LLVMEvent where
  | ninjaBuild (targets : List String)
  | ninjaCheck (targets : List String)
  | printDuration
  | boltStep (ev : BoltEvent)
  | ninjaInstall (targets : List String)
  | createGitignore
  deriving DecidableEq, Repr

/-- `LLVMBuilder.build` (`tc_build/llvm.py` lines 201–228): precondition
checks, `ninja` with the build targets, optional `ninja check-...`, then
`bolt_clang()` if and only if `self.bolt`, then `ninja install...` if an
install folder is set. -/
def LLVMBuilder.build (s : LLVMBuildState) (env : BoltEnv) :
    Except PyErr (List LLVMEvent) :=
  if s.folders_build.isNone then
    .error (.runtimeError "No build folder set for build()?")
  else if !s.build_ninja_exists then
    .error (.runtimeError "No build.ninja in build folder, run configure()?")
  else if s.bolt && !s.bolt_builder_set then
    .error (.runtimeError "BOLT requested without a builder?")
  else
    .ok ([.ninjaBuild s.build_targets]
      ++ (if !s.check_targets.isEmpty then
            [.ninjaCheck (s.check_targets.map (fun t => "check-" ++ t))]
          else [])
      ++ [.printDuration]
      ++ (if s.bolt then (LLVMBuilder.bolt_clang env).map .boltStep else [])
      ++ (if s.folders_install.isSome then
            [.ninjaInstall
              (if !s.install_targets.isEmpty then
                s.install_targets.map (fun t => "install-" ++ t)
              else ["install"]),
              .createGitignore]
          else []))

/-! ## `build-llvm.py` — the flat multi-stage PGO/BOLT pipeline -/

/-- The CLI options of `build-llvm.py` that the embedded functions read,
with the defaults `parse_parameters` assigns.  `--pgo` takes a non-empty
list of benchmarks (`nargs="+"`), so "`--pgo` was given" is `pgo ≠ []`;
`argparse` puts `--pgo` and `--build-stage1-only` in one mutually exclusive
group.  `defines_repr` is `str(args.defines)`, the string the
`CMAKE_C_FLAGS`/`CMAKE_CXX_FLAGS` fallback tests with `in`. -/
structure Args where
  assertions : Bool := false
  bolt : Bool := false
  build_stage1_only : Bool := false
  build_type : String := "Release"
  check_targets : List String := []
  defines_repr : String := "None"
  full_toolchain : Bool := false
  install_stage1_only : Bool := false
  lto : Option String := none
  no_ccache : Bool := false
  pgo : List String := []
  deriving DecidableEq, Repr

/-- The two folder paths of the `Directories` instance that the embedded
functions read. -/
structure Dirs where
  build_folder : String := "/root/tc-build/build/llvm"
  install_folder : String := "/root/tc-build/install"
  deriving DecidableEq, Repr

/-- `get_final_stage` (`build-llvm.py` lines 712–723). -/
def get_final_stage (a : Args) : Nat :=
  if a.build_stage1_only then 1
  else if !a.pgo.isEmpty then 3
  else 2

/-- `should_install_toolchain` (`build-llvm.py` lines 725–743). -/
def should_install_toolchain (a : Args) (stage : Nat) : Bool :=
  if stage ≠ get_final_stage a then false
  else if a.build_stage1_only && !a.install_stage1_only then false
  else true

/-- `bootstrap_stage` (`build-llvm.py` lines 745–753). -/
def bootstrap_stage (a : Args) (stage : Nat) : Bool :=
  !a.build_stage1_only && stage == 1

/-- `instrumented_stage` (`build-llvm.py` lines 755–762). -/
def instrumented_stage (a : Args) (stage : Nat) : Bool :=
  !a.pgo.isEmpty && stage == 2

/-- `slim_cmake_defines` (`build-llvm.py` lines 773–804), in source order. -/
def slim_cmake_defines : Dict :=
  [("CLANG_ENABLE_ARCMT", "OFF"),
   ("CLANG_ENABLE_STATIC_ANALYZER", "OFF"),
   ("CLANG_PLUGIN_SUPPORT", "OFF"),
   ("LLVM_ENABLE_BINDINGS", "OFF"),
   ("LLVM_ENABLE_OCAMLDOC", "OFF"),
   ("LLVM_EXTERNAL_CLANG_TOOLS_EXTRA_SOURCE_DIR", ""),
   ("LLVM_INCLUDE_DOCS", "OFF"),
   ("LLVM_INCLUDE_EXAMPLES", "OFF")]

/-- Python `str.capitalize()`: first character upper-cased, the rest
lower-cased. -/
def pyCapitalize (s : String) : String :=
  match s.toList with
  | [] => ""
  | c :: rest => String.mk (c.toUpper :: rest.map Char.toLower)

/-- What `stage_specific_cmake_defines` finds in the world: whether
`shutil.which("ccache")` succeeds. -/
structure FlatEnv where
  ccache_on_path : Bool := false
  deriving DecidableEq, Repr

/-- `stage_specific_cmake_defines` (`build-llvm.py` lines 1013–1082),
transcribed assignment by assignment. -/
def stage_specific_cmake_defines (a : Args) (dirs : Dirs) (env : FlatEnv)
    (stage : Nat) : Dict :=
  let defines : Dict := []
  let defines :=
    if stage == 1 && !a.no_ccache && env.ccache_on_path then
      dictSet defines "LLVM_CCACHE_BUILD" "ON"
    else defines
  if bootstrap_stage a stage then
    let defines := dictUpdate defines slim_cmake_defines
    let defines := dictSet defines "CMAKE_BUILD_TYPE" "Release"
    let defines := dictSet defines "LLVM_BUILD_UTILS" "OFF"
    let defines := dictSet defines "LLVM_ENABLE_BACKTRACES" "OFF"
    let defines := dictSet defines "LLVM_ENABLE_WARNINGS" "OFF"
    dictSet defines "LLVM_INCLUDE_TESTS" "OFF"
  else
    let defines := dictSet defines "CMAKE_BUILD_TYPE" a.build_type
    let defines :=
      if a.build_type == "Release" then dictSet defines "LLVM_ENABLE_WARNINGS" "OFF"
      else defines
    let defines :=
      if a.assertions then dictSet defines "LLVM_ENABLE_ASSERTIONS" "ON" else defines
    let defines := dictSet defines "CMAKE_INSTALL_PREFIX" dirs.install_folder
    let defines :=
      if instrumented_stage a stage then
        let d := dictSet defines "LLVM_BUILD_INSTRUMENTED" "IR"
        let d := dictSet d "LLVM_BUILD_RUNTIME" "OFF"
        let d := dictSet d "LLVM_LINK_LLVM_DYLIB" "ON"
        dictSet d "LLVM_VP_COUNTERS_PER_SITE" "6"
      else defines
    let defines :=
      if stage == get_final_stage a then
        let d :=
          if !a.pgo.isEmpty then
            dictSet defines "LLVM_PROFDATA_FILE" (dirs.build_folder ++ "/profdata.prof")
          else defines
        let d :=
          match a.lto with
          | some lto => dictSet d "LLVM_ENABLE_LTO" (pyCapitalize lto)
          | none => d
        if a.bolt then dictSet d "CMAKE_EXE_LINKER_FLAGS" "-Wl,--emit-relocs" else d
      else defines
    let defines :=
      if !strContains a.defines_repr "CMAKE_C_FLAGS" then
        dictSet defines "CMAKE_C_FLAGS" ""
      else defines
    if !strContains a.defines_repr "CMAKE_CXX_FLAGS" then
      dictSet defines "CMAKE_CXX_FLAGS" ""
    else defines

/-- `can_use_perf` (`build-llvm.py` lines 1420–1441): `perf` must be on
`PATH` and the probe `perf record` (run with `check=True`) must not raise. -/
def can_use_perf_flat (perf_on_path perf_record_ok : Bool) : Bool :=
  perf_on_path && perf_record_ok

/-- Spelling of a `BoltMode` as the Python string. -/
def BoltMode.str : BoltMode → String
  | .sampling => "sampling"
  | .instrumentation => "instrumentation"

/-- The observable actions of the flat `do_bolt`, in program order. -/
inductive FlatBoltEvent where
  | printHeader (mode : BoltMode)
  | removeOldProfile
  | instrumentClang
  | kernelBuildSh (profile_type : String)
  | mergeFdata
  | perf2bolt
  | optimizeClang
  | moveBoltOverClang
  | unlinkClangInst
  deriving DecidableEq, Repr

/-- `do_bolt` (`build-llvm.py` lines 1443–1542) as its event trace: default
to instrumentation, switch to sampling when `can_use_perf()`; in
instrumentation mode delete a stale profile and instrument clang with
`llvm-bolt --instrument --instrumentation-file-append-pid`; generate
profiles by running `kernel/build.sh --bolt-<mode>`; merge the per-PID
`.fdata` files (instrumentation) or convert `perf.data` with `perf2bolt`
(sampling); optimize with `llvm-bolt --data=...`; `shutil.move` the
optimized binary over the original clang; remove the instrumented clang. -/
def do_bolt_flat (perf_on_path perf_record_ok : Bool) : List FlatBoltEvent :=
  let mode := if can_use_perf_flat perf_on_path perf_record_ok then
    BoltMode.sampling else BoltMode.instrumentation
  [.printHeader mode]
    ++ (if mode = .instrumentation then [.removeOldProfile, .instrumentClang] else [])
    ++ [.kernelBuildSh ("bolt-" ++ mode.str)]
    ++ (if mode = .instrumentation then [.mergeFdata] else [])
    ++ (if mode = .sampling then [.perf2bolt] else [])
    ++ [.optimizeClang, .moveBoltOverClang]
    ++ (if mode = .instrumentation then [.unlinkClangInst] else [])

/-- The observable actions of the flat pipeline (`invoke_ninja` and
`do_multistage_build`), in program order. -/
inductive FlatEvent where
  | mkdirStage (stage : Nat)
  | cmakeConfigure (stage : Nat)
  | ninjaBuild (stage : Nat)
  | ninjaCheck (stage : Nat)
  | ninjaInstall (stage : Nat)
  | createGitignore
  | boltStep (ev : FlatBoltEvent)
  | printInstallInfo
  | generatePgoProfiles
  deriving DecidableEq, Repr

/-- `invoke_ninja` (`build-llvm.py` lines 1217–1263) as its event trace:
run `ninja`; on the final stage run the requested check targets; when
`should_install_toolchain` holds run `ninja install`, write the gitignore,
and — only then, and only with `--bolt` — run `do_bolt`; print the install
information whenever an install folder was chosen. -/
def invoke_ninja_events (a : Args) (stage : Nat)
    (perf_on_path perf_record_ok : Bool) : List FlatEvent :=
  [.ninjaBuild stage]
    ++ (if stage == get_final_stage a && !a.check_targets.isEmpty then
          [.ninjaCheck stage]
        else [])
    ++ (if should_install_toolchain a stage then
          [.ninjaInstall stage, .createGitignore]
            ++ (if a.bolt then
                  (do_bolt_flat perf_on_path perf_record_ok).map .boltStep
                else [])
        else [])
    ++ (if should_install_toolchain a stage ||
          (stage == 1 && a.build_stage1_only && !a.install_stage1_only) then
          [.printInstallInfo]
        else [])

/-- `do_multistage_build` (`build-llvm.py` lines 1401–1417): build stage 1,
then — unless `--build-stage1-only` — stage 2, then — with `--pgo` — stage
3; after the instrumented stage, generate the PGO profiles. -/
def do_multistage_build (a : Args) (perf_on_path perf_record_ok : Bool) :
    List FlatEvent :=
  let stages := [1] ++
    (if !a.build_stage1_only then [2] ++ (if !a.pgo.isEmpty then [3] else [])
     else [])
  (stages.map fun s =>
    [FlatEvent.mkdirStage s, FlatEvent.cmakeConfigure s]
      ++ invoke_ninja_events a s perf_on_path perf_record_ok
      ++ (if instrumented_stage a s then [FlatEvent.generatePgoProfiles] else [])).flatten

/-! ## `build-llvm.py` — `linker_test` and `check_cc_ld_variables` -/

/-- `linker_test` (`build-llvm.py` lines 450–468): the compile-and-link
probe runs with `check=True`; a `CalledProcessError` is caught and yields
`False`, otherwise the function returns `True`.  So it returns `True`
exactly when the probe exits zero — i.e. when the linker *works*. -/
def linker_test (res : CmdResult) : Bool :=
  res.returncode == 0

/-- What the `LD` selection logic of `check_cc_ld_variables` finds in the
world: what `shutil.which` resolves (with the compiler folder prepended to
`PATH`), and the outcome of the `cc -fuse-ld=<ld>` probe as a function of
the `ld` value passed (Python renders `None` into the flag, so the probe
takes an `Option`). -/
structure LdEnv where
  which_resolves : String → Option String
  link_attempt : Option String → CmdResult

/-- The `ld` computation of `check_cc_ld_variables`
(`build-llvm.py` lines 538–584): with `LD` in the environment, resolve it
through `shutil.which` for clang ≥ 3.9.0, then *discard it when
`linker_test` succeeds* (printing "LD won't work ..., saving you from
yourself by ignoring LD value") and keep it otherwise; without `LD`, clang
searches `ld.lld`/`ld.gold`/`ld.bfd` (falling back to the bare linker name
for clang < 3.9.0), while gcc tries `gold` and likewise *discards it when
the test succeeds*.  The returned value is finally `str.strip()`-ed by the
printing block. -/
def check_cc_ld_variables_ld (env_LD : Option String) (cc_is_clang : Bool)
    (clang_ver : Nat) (e : LdEnv) : Option String :=
  let ld : Option String :=
    match env_LD with
    | some ld0 =>
      let ld1 : Option String :=
        if cc_is_clang && clang_ver ≥ 30900 then e.which_resolves ld0 else some ld0
      if linker_test (e.link_attempt ld1) then none else ld1
    | none =>
      if cc_is_clang then
        let found := (["lld", "gold", "bfd"].map
          fun l => (l, e.which_resolves ("ld." ++ l))).find? fun p => p.2.isSome
        let ld2 := (found.map Prod.snd).getD none
        let linker := (found.map Prod.fst).getD "bfd"
        if clang_ver < 30900 then some linker else ld2
      else
        if linker_test (e.link_attempt (some "gold")) then none else some "gold"
  ld.map pyStrip

/-- Does one requested binutils target resolve without a `KeyError`
(either `"all"`, or its `targets_dict` key — via `host_arch_target` for
`"host"`, via `target_arch` otherwise — is present)? -/
def resolvesTarget (machine t : String) : Bool :=
  t == "all" ||
    (dictGet targets_dict
      (if t == "host" then host_arch_target machine else target_arch t)).isSome

/-- Projection used to state stage ordering: keep only the per-stage `ninja`
build steps and the PGO profile generation. -/
def stageMarker : FlatEvent → Bool
  | .ninjaBuild _ => true
  | .generatePgoProfiles => true
  | _ => false

/-- Projection used to state BOLT ordering in the flat pipeline: keep the
`ninja` build, the `ninja install`, and the BOLT steps. -/
def flatBoltRelated : FlatEvent → Bool
  | .ninjaBuild _ => true
  | .ninjaInstall _ => true
  | .boltStep _ => true
  | _ => false

/-- Projection used to state BOLT ordering in `LLVMBuilder.build`: keep the
`ninja` build, the `ninja install`, and the BOLT steps. -/
def classBoltRelated : LLVMEvent → Bool
  | .ninjaBuild _ => true
  | .ninjaInstall _ => true
  | .boltStep _ => true
  | _ => false

/-! ## Theorems -/

/-- **C8**: the flat script's uname-machine-to-LLVM-target mapping and the
library's per-class version implement the same function: for every machine
string, `get_host_llvm_target` in `build-llvm.py` and
`LLVMBuilder.host_target` in `tc_build/llvm.py` return equal results
(including returning nothing for machines absent from both tables). -/
theorem C8_host_target_tables_agree :
    ∀ machine : String, get_host_llvm_target machine = LLVMBuilder.host_target machine :=
  fun _ => rfl

/-- **C9**: `S390KernelBuilder.build` performs the kernel build exactly when
the toolchain version is lexicographically strictly greater than
`(15, 0, 0)`; at `(15, 0, 0)` and below it prints the warning — whose text
reads "LLVM < 15.0.0" — and returns without building. -/
theorem C9_s390_version_gate :
    (∀ v : Nat × Nat × Nat,
        S390Event.kernelBuild ∈ S390KernelBuilder.build v ↔
          (15 < v.1 ∨ (v.1 = 15 ∧ (0 < v.2.1 ∨ (v.2.1 = 0 ∧ 0 < v.2.2))))) ∧
      S390KernelBuilder.build (15, 0, 0) = [.skipWarning s390SkipWarning] ∧
      strContains s390SkipWarning "LLVM < 15.0.0" = true := by
  refine ⟨fun v => ?_, by decide, by decide⟩
  obtain ⟨x, y, z⟩ := v
  simp only [S390KernelBuilder.build, pyTupleLe]
  split
  next hle =>
    simp only [beq_iff_eq, Bool.or_eq_true, Bool.and_eq_true, decide_eq_true_eq] at hle
    simp only [List.mem_singleton, false_iff, reduceCtorEq]
    omega
  next hle =>
    simp only [beq_iff_eq, Bool.or_eq_true, Bool.and_eq_true, decide_eq_true_eq,
      not_or, not_and] at hle
    simp only [List.mem_singleton, true_iff]
    omega

/-- **C10**: every call to `RustBuilder.configure` that passes its three
precondition checks raises `AttributeError` at `self.make_build_folder()` —
a method no class in the program defines — before the `configure`
subprocess is invoked; so `configure` can never complete successfully. -/
theorem C10_rust_configure_always_raises (s : RustBuilderState)
    (h1 : s.llvm_install_folder.isSome = true)
    (h2 : s.folders_source.isSome = true)
    (h3 : s.folders_build.isSome = true) :
    RustBuilder.configure s = .error (.attributeError "make_build_folder") := by
  have n1 : s.llvm_install_folder.isNone = false := by
    cases h : s.llvm_install_folder <;> simp_all
  have n2 : s.folders_source.isNone = false := by
    cases h : s.folders_source <;> simp_all
  have n3 : s.folders_build.isNone = false := by
    cases h : s.folders_build <;> simp_all
  simp only [RustBuilder.configure, n1, n2, n3, Bool.false_eq_true, if_false]
  rw [if_neg (by decide)]

/-- Witness for **C10** at a fully-populated builder state. -/
theorem C10_rust_configure_always_raises_witness :
    RustBuilder.configure
        { llvm_install_folder := some "/root/tc-build/install",
          folders_source := some "/root/tc-build/src/rust",
          folders_build := some "/root/tc-build/build/rust" }
      = .error (.attributeError "make_build_folder") :=
  C10_rust_configure_always_raises _ rfl rfl rfl

/-- **C2**: the claim says a checksum mismatch raises `RuntimeError`.  The
code indeed aborts on every mismatch, but with `AttributeError`: the
message f-string of the `raise RuntimeError(...)` reads
`self.local_destination`, a name `Tarball` never defines (the attribute is
`local_location`), and Python evaluates the f-string before constructing
the `RuntimeError`.  A matching checksum returns normally. -/
theorem C2_checksum_mismatch_behaviour :
    Tarball.download
        { base_download_url := some "https://cdn.kernel.org/pub/linux/kernel/v6.x",
          local_location := some "/root/tc-build/src/linux-6.1.8.tar.xz",
          remote_checksum_name := "sha256sums.asc" }
        { local_exists := false,
          checksum_lines := ["aaaa0000  linux-6.1.8.tar.xz"],
          file_sha256 := "bbbb1111",
          file_sha512 := "cccc2222" }
      = .error (.attributeError "local_destination") ∧
    Tarball.download
        { base_download_url := some "https://cdn.kernel.org/pub/linux/kernel/v6.x",
          local_location := some "/root/tc-build/src/linux-6.1.8.tar.xz",
          remote_checksum_name := "sha256sums.asc" }
        { local_exists := false,
          checksum_lines := ["aaaa0000  linux-6.1.8.tar.xz"],
          file_sha256 := "aaaa0000",
          file_sha512 := "cccc2222" }
      = .ok () := by
  constructor <;> decide

/-- **C1** counterexample: the claim says no operation catches a subprocess
failure and continues the run, but `LinuxSourceManager.prepare` does: a
`patch` invocation that exits 1 with "Reversed (or previously applied)
patch detected" in its stdout is caught, turned into a warning, and the
preparation continues successfully. -/
theorem C1_counterexample_patch_failure_is_caught :
    (1 : Nat) ≠ 0 ∧
      LinuxSourceManager.applyPatches
          [("0001-fix.patch",
            { returncode := 1,
              stdout := "Reversed (or previously applied) patch detected!  Skipping patch." })]
        = .ok [.patchWarning "0001-fix.patch"] :=
  ⟨by decide, by decide⟩

/-- **C1** (amended): subprocess build steps run with `check=True` and a
non-zero exit aborts the run — except the patch-application step of
`LinuxSourceManager.prepare`, which catches a failed `patch` whose stdout
reports "Reversed (or previously applied) patch detected", prints a warning
and continues, re-raising every other failure.  Formally: the patch loop
completes without an exception exactly when every patch either exits zero
or reports an already-applied patch. -/
theorem C1_amended_patch_loop (patches : List (String × CmdResult)) :
    (∃ evs, LinuxSourceManager.applyPatches patches = .ok evs) ↔
      ∀ p ∈ patches,
        p.2.returncode = 0 ∨ strContains p.2.stdout reversedPatchMsg = true := by
  induction patches with
  | nil => simp [LinuxSourceManager.applyPatches]
  | cons hd tl ih =>
    obtain ⟨patch, res⟩ := hd
    by_cases h0 : res.returncode = 0
    · simp only [LinuxSourceManager.applyPatches, h0]
      rw [if_neg (by simp)]
      cases htl : LinuxSourceManager.applyPatches tl with
      | ok evs' =>
        constructor
        · intro _ p hp
          rcases List.mem_cons.mp hp with hp | hp
          · rw [hp]; exact Or.inl h0
          · exact (ih.mp ⟨evs', htl⟩) p hp
        · intro _; exact ⟨_, rfl⟩
      | error e =>
        constructor
        · rintro ⟨evs, h⟩; cases h
        · intro h
          obtain ⟨evs, he⟩ := ih.mpr fun p hp => h p (List.mem_cons_of_mem _ hp)
          rw [he] at htl
          cases htl
    · simp only [LinuxSourceManager.applyPatches]
      rw [if_pos h0]
      by_cases hm : strContains res.stdout reversedPatchMsg = true
      · rw [if_pos hm]
        cases htl : LinuxSourceManager.applyPatches tl with
        | ok evs' =>
          constructor
          · intro _ p hp
            rcases List.mem_cons.mp hp with hp | hp
            · rw [hp]; exact Or.inr hm
            · exact (ih.mp ⟨evs', htl⟩) p hp
          · intro _; exact ⟨_, rfl⟩
        | error e =>
          constructor
          · rintro ⟨evs, h⟩; cases h
          · intro h
            obtain ⟨evs, he⟩ := ih.mpr fun p hp => h p (List.mem_cons_of_mem _ hp)
            rw [he] at htl
            cases htl
      · rw [if_neg hm]
        constructor
        · rintro ⟨evs, h⟩; cases h
        · intro h
          rcases h (patch, res) (List.mem_cons_self _ _) with h' | h'
          · exact absurd h' h0
          · exact absurd h' hm

/-- **C4**: BOLT profile collection uses exactly one of two modes, chosen
deterministically: sampling is selected if and only if `perf` is on `PATH`
and the probe `perf record` succeeds; in every other case instrumentation
mode is used, in which the clang binary is instrumented by `llvm-bolt` and
the per-PID `.fdata` profiles are merged (and no `perf2bolt` conversion
happens).  This holds for both the flat `do_bolt`/`can_use_perf` and the
class `LLVMBuilder.bolt_clang`/`can_use_perf`. -/
theorem C4_bolt_profile_mode :
    (∀ onPath recOk : Bool,
        (can_use_perf_flat onPath recOk = true ↔ onPath = true ∧ recOk = true) ∧
          (do_bolt_flat onPath recOk).head? =
            some (.printHeader
              (if can_use_perf_flat onPath recOk then .sampling else .instrumentation)) ∧
          (can_use_perf_flat onPath recOk = false →
            FlatBoltEvent.instrumentClang ∈ do_bolt_flat onPath recOk ∧
              FlatBoltEvent.mergeFdata ∈ do_bolt_flat onPath recOk ∧
              FlatBoltEvent.perf2bolt ∉ do_bolt_flat onPath recOk)) ∧
      ∀ env : BoltEnv,
        (LLVMBuilder.can_use_perf env = true ↔
            env.perf_on_path = true ∧ env.perf_record_ok = true) ∧
          (LLVMBuilder.boltMode env = .sampling ↔
            env.perf_on_path = true ∧ env.perf_record_ok = true) ∧
          (LLVMBuilder.boltMode env = .instrumentation →
            BoltEvent.instrumentBinary ∈ LLVMBuilder.bolt_clang env ∧
              BoltEvent.mergeFdata ∈ LLVMBuilder.bolt_clang env ∧
              BoltEvent.perf2bolt ∉ LLVMBuilder.bolt_clang env) := by
  constructor
  · decide
  · intro env
    obtain ⟨p1, p2, pa, mc, r1, r2, c1, c2, hf⟩ := env
    cases p1 <;> cases p2 <;> cases mc <;>
      simp [LLVMBuilder.can_use_perf, LLVMBuilder.boltMode, LLVMBuilder.bolt_clang]

/-- Any occurrence of `"all"` among targets that all resolve makes the loop
return the full `targets_dict` value list, whatever has been accumulated. -/
theorem createTargetsLoop_all (machine : String) :
    ∀ (ts acc : List String), "all" ∈ ts →
      (∀ t ∈ ts, resolvesTarget machine t = true) →
      createTargetsLoop machine ts acc = .ok (targets_dict.map Prod.snd) := by
  intro ts
  induction ts with
  | nil => intro acc h; cases h
  | cons hd tl ih =>
    intro acc hall hres
    by_cases hhd : hd = "all"
    · simp [createTargetsLoop, hhd]
    · have hmem : "all" ∈ tl := by
        rcases List.mem_cons.mp hall with h | h
        · exact absurd h.symm hhd
        · exact h
      have hr := hres hd (List.mem_cons_self _ _)
      simp only [resolvesTarget, Bool.or_eq_true, beq_iff_eq] at hr
      rcases hr with hr | hr
      · exact absurd hr hhd
      · simp only [createTargetsLoop]
        rw [if_neg hhd]
        cases hd' : dictGet targets_dict
            (if hd = "host" then host_arch_target machine else target_arch hd) with
        | none => rw [hd'] at hr; cases hr
        | some triple =>
          exact ih (setAdd acc triple) hmem fun t ht => hres t (List.mem_cons_of_mem _ ht)

/-- **C7**: `create_targets` maps every requested architecture name to its
target triple per the fixed ten-entry table, reduces a full triple to its
first dash-separated component, resolves `"host"` through
`host_arch_target`, and on any occurrence of `"all"` (among resolvable
requests) yields the list of all ten triples. -/
theorem C7_create_targets_mapping :
    (∀ machine : String,
        create_targets machine ["arm"] = .ok ["arm-linux-gnueabi"] ∧
        create_targets machine ["aarch64"] = .ok ["aarch64-linux-gnu"] ∧
        create_targets machine ["mips"] = .ok ["mips-linux-gnu"] ∧
        create_targets machine ["mipsel"] = .ok ["mipsel-linux-gnu"] ∧
        create_targets machine ["powerpc"] = .ok ["powerpc-linux-gnu"] ∧
        create_targets machine ["powerpc64"] = .ok ["powerpc64-linux-gnu"] ∧
        create_targets machine ["powerpc64le"] = .ok ["powerpc64le-linux-gnu"] ∧
        create_targets machine ["riscv64"] = .ok ["riscv64-linux-gnu"] ∧
        create_targets machine ["s390x"] = .ok ["s390x-linux-gnu"] ∧
        create_targets machine ["x86_64"] = .ok ["x86_64-linux-gnu"]) ∧
      (∀ machine t : String, t ≠ "all" → t ≠ "host" →
        create_targets machine [t] =
          match dictGet targets_dict (target_arch t) with
          | some triple => .ok [triple]
          | none => .error (.keyError (target_arch t))) ∧
      (∀ machine : String,
        create_targets machine ["host"] =
          match dictGet targets_dict (host_arch_target machine) with
          | some triple => .ok [triple]
          | none => .error (.keyError (host_arch_target machine))) ∧
      (∀ (machine : String) (ts : List String), "all" ∈ ts →
        (∀ t ∈ ts, resolvesTarget machine t = true) →
        create_targets machine ts = .ok (targets_dict.map Prod.snd)) ∧
      targets_dict.map Prod.snd =
        ["arm-linux-gnueabi", "aarch64-linux-gnu", "mips-linux-gnu",
         "mipsel-linux-gnu", "powerpc64-linux-gnu", "powerpc64le-linux-gnu",
         "powerpc-linux-gnu", "riscv64-linux-gnu", "s390x-linux-gnu",
         "x86_64-linux-gnu"] := by
  refine ⟨fun machine => ⟨rfl, rfl, rfl, rfl, rfl, rfl, rfl, rfl, rfl, rfl⟩,
    fun machine t h1 h2 => ?_, fun machine => ?_,
    fun machine ts hall hres => createTargetsLoop_all machine ts [] hall hres, rfl⟩
  · simp only [create_targets, createTargetsLoop]
    rw [if_neg h1, if_neg h2]
    cases hd : dictGet targets_dict (target_arch t) with
    | none => rfl
    | some triple => rfl
  · simp only [create_targets, createTargetsLoop]
    rw [if_neg (by decide)]
    simp only [if_pos trivial, reduceIte]
    cases hd : dictGet targets_dict (host_arch_target machine) with
    | none => rfl
    | some triple => rfl

/-- Witness for **C7**: a full triple request and a `"host"`/`"all"` mix at
concrete machines. -/
theorem C7_create_targets_mapping_witness :
    create_targets "x86_64" ["aarch64-linux-gnu"] = .ok ["aarch64-linux-gnu"] ∧
      create_targets "armv7l" ["host", "all"] = .ok (targets_dict.map Prod.snd) :=
  ⟨by
    have h := C7_create_targets_mapping.2.1 "x86_64" "aarch64-linux-gnu"
      (by decide) (by decide)
    simpa using h,
   C7_create_targets_mapping.2.2.2.1 "armv7l" ["host", "all"]
    (by decide) (by decide)⟩

/-- **C5**: in `check_cc_ld_variables`, when `LD` is set and `linker_test`
*succeeds* (the probe links), the value is discarded and `ld = None` is
returned (the script prints that LD won't work); when `linker_test` fails,
the user's `LD` value (resolved through `shutil.which` for clang ≥ 3.9.0)
is kept.  Symmetrically, with gcc and no `LD`, `gold` is discarded exactly
when it passes the linker test. -/
theorem C5_ld_discarded_on_successful_test (e : LdEnv) (s : String)
    (cc_is_clang : Bool) (ver : Nat) :
    ((linker_test (e.link_attempt
          (if cc_is_clang && ver ≥ 30900 then e.which_resolves s else some s)) = true →
        check_cc_ld_variables_ld (some s) cc_is_clang ver e = none) ∧
      (linker_test (e.link_attempt
          (if cc_is_clang && ver ≥ 30900 then e.which_resolves s else some s)) = false →
        check_cc_ld_variables_ld (some s) cc_is_clang ver e =
          (if cc_is_clang && ver ≥ 30900 then e.which_resolves s else some s).map pyStrip)) ∧
      check_cc_ld_variables_ld none false ver e =
        (if linker_test (e.link_attempt (some "gold")) then none else some "gold") := by
  refine ⟨⟨fun h => ?_, fun h => ?_⟩, ?_⟩
  · simp only [check_cc_ld_variables_ld, h, if_true, Option.map_none']
  · simp only [check_cc_ld_variables_ld, h, Bool.false_eq_true, if_false]
  · simp only [check_cc_ld_variables_ld, Bool.false_eq_true, if_false]
    cases h : linker_test (e.link_attempt (some "gold")) with
    | false => simp [pyStrip]
    | true => simp

/-- Witness for **C5**: a clang ≥ 3.9.0 setup whose `LD` passes the probe is
discarded; a gcc setup whose `gold` fails the probe keeps `gold`. -/
theorem C5_ld_discarded_on_successful_test_witness :
    check_cc_ld_variables_ld (some "lld") true 170006
        { which_resolves := fun _ => some "/usr/bin/ld.lld",
          link_attempt := fun _ => { returncode := 0, stdout := "" } } = none ∧
      check_cc_ld_variables_ld none false 0
        { which_resolves := fun _ => none,
          link_attempt := fun _ => { returncode := 1, stdout := "collect2: error" } }
        = some "gold" :=
  ⟨(C5_ld_discarded_on_successful_test _ "lld" true 170006).1.1 rfl,
   by
    have h := (C5_ld_discarded_on_successful_test
      { which_resolves := fun _ => none,
        link_attempt := fun _ => { returncode := 1, stdout := "collect2: error" } }
      "gold" false 0).2
    simpa using h⟩

/-- Every flat BOLT step survives the `flatBoltRelated` projection. -/
theorem filter_boltStep_flat (l : List FlatBoltEvent) :
    l.filter (flatBoltRelated ∘ FlatEvent.boltStep) = l := by
  induction l with
  | nil => rfl
  | cons h t ih => simp [List.filter_cons, flatBoltRelated, Function.comp, ih]

/-- Every class BOLT step survives the `classBoltRelated` projection. -/
theorem filter_boltStep_class (l : List BoltEvent) :
    l.filter (classBoltRelated ∘ LLVMEvent.boltStep) = l := by
  induction l with
  | nil => rfl
  | cons h t ih => simp [List.filter_cons, classBoltRelated, Function.comp, ih]

/-- **C6**: BOLT is optional and never runs without `--bolt`; when it runs,
it runs only after the final stage has been built — in the flat
`invoke_ninja` only inside the install block (after `ninja install`, which
only happens on the final stage), in `LLVMBuilder.build` after the `ninja`
build and before the install — and the optimized binary replaces the
original clang binary in place (`shutil.move(clang_bolt, clang)` /
`bolt_binary.replace(real_binary)` directly after the optimization step). -/
theorem C6_bolt_is_optional_and_post_build :
    (∀ (a : Args) (stage : Nat) (p1 p2 : Bool),
        (invoke_ninja_events a stage p1 p2).filter flatBoltRelated =
          [FlatEvent.ninjaBuild stage] ++
            (if should_install_toolchain a stage then
              [FlatEvent.ninjaInstall stage] ++
                (if a.bolt then (do_bolt_flat p1 p2).map .boltStep else [])
            else [])) ∧
      (∀ (a : Args) (stage : Nat),
        should_install_toolchain a stage = true → stage = get_final_stage a) ∧
      (∀ p1 p2 : Bool,
        [FlatBoltEvent.optimizeClang, FlatBoltEvent.moveBoltOverClang]
          <:+: do_bolt_flat p1 p2) ∧
      (∀ (s : LLVMBuildState) (env : BoltEnv) (evs : List LLVMEvent),
        LLVMBuilder.build s env = .ok evs →
          evs.filter classBoltRelated =
            [LLVMEvent.ninjaBuild s.build_targets] ++
              (if s.bolt then (LLVMBuilder.bolt_clang env).map .boltStep else []) ++
              (if s.folders_install.isSome then
                [LLVMEvent.ninjaInstall
                  (if !s.install_targets.isEmpty then
                    s.install_targets.map (fun t => "install-" ++ t)
                  else ["install"])]
              else [])) ∧
      ∀ env : BoltEnv,
        [BoltEvent.optimize, BoltEvent.replaceBinary] <:+: LLVMBuilder.bolt_clang env := by
  refine ⟨fun a stage p1 p2 => ?_, fun a stage h => ?_, fun p1 p2 => ?_,
    fun s env evs h => ?_, fun env => ?_⟩
  · simp only [invoke_ninja_events, List.filter_append,
      apply_ite (List.filter flatBoltRelated), List.filter_map, List.filter_cons,
      List.filter_nil, flatBoltRelated, Function.comp]
    cases hsi : should_install_toolchain a stage <;>
      cases hb : a.bolt <;>
        simp [List.filter_map, Function.comp, flatBoltRelated, filter_boltStep_flat]
  · by_contra hne
    simp only [should_install_toolchain, if_pos hne] at h
    cases h
  · cases p1 <;> cases p2 <;>
      first
        | exact ⟨[.printHeader .sampling, .kernelBuildSh "bolt-sampling",
            .perf2bolt], [], rfl⟩
        | exact ⟨[.printHeader .instrumentation, .removeOldProfile, .instrumentClang,
            .kernelBuildSh "bolt-instrumentation", .mergeFdata],
            [.unlinkClangInst], rfl⟩
  · unfold LLVMBuilder.build at h
    split at h
    · cases h
    · split at h
      · cases h
      · split at h
        · cases h
        · injection h with h'
          subst h'
          simp only [List.filter_append, apply_ite (List.filter classBoltRelated),
            List.filter_cons, List.filter_nil, classBoltRelated, List.filter_map,
            Function.comp]
          cases hb : s.bolt <;>
            cases hi : s.folders_install.isSome <;>
              cases hc : s.check_targets.isEmpty <;>
                simp [List.filter_map, Function.comp, classBoltRelated,
                  filter_boltStep_class]
  · obtain ⟨pp, pr, pa, mc, r1, r2, c1, c2, hf⟩ := env
    cases pp <;> cases pr <;> cases mc <;>
      first
        | exact ⟨[.printHeader .sampling, .setSamplingOutput, .runWorkload, .perf2bolt],
            [], rfl⟩
        | exact ⟨[.printHeader .instrumentation, .instrumentBinary,
            .setBoltInstrumentation, .runWorkload, .mergeFdata],
            [.unlinkInstBinary], rfl⟩
        | exact ⟨[.printHeader .instrumentation, .instrumentBinary, .shuffleForBuild,
            .runWorkload, .unshuffle, .mergeFdata],
            [.unlinkInstBinary], rfl⟩

/-- Replacing every entry keyed `k` leaves lookups of other keys alone. -/
theorem dictGet_replace_ne (tl : Dict) (k v k' : String) (h : k' ≠ k) :
    dictGet (tl.map fun p => if p.1 == k then (k, v) else p) k' = dictGet tl k' := by
  induction tl with
  | nil => rfl
  | cons hd t ih =>
    obtain ⟨a, b⟩ := hd
    by_cases hk : a = k
    · subst hk
      have h2 : (a == k') = false := beq_eq_false_iff_ne.mpr (Ne.symm h)
      simp only [List.map_cons]
      rw [if_pos (by simp)]
      simp only [dictGet, h2, Bool.false_eq_true, if_false]
      exact ih
    · simp only [List.map_cons]
      rw [if_neg (by simp [hk])]
      simp only [dictGet, ih]

/-- Replacing every entry keyed `k` makes the `k` lookup the new value,
provided some entry has key `k`. -/
theorem dictGet_replace_eq (tl : Dict) (k v : String)
    (h : tl.any (·.1 == k) = true) :
    dictGet (tl.map fun p => if p.1 == k then (k, v) else p) k = some v := by
  induction tl with
  | nil => cases h
  | cons hd t ih =>
    obtain ⟨a, b⟩ := hd
    by_cases hk : a = k
    · subst hk
      simp only [List.map_cons]
      rw [if_pos (by simp)]
      simp [dictGet]
    · have h1 : (a == k) = false := beq_eq_false_iff_ne.mpr hk
      have h2 : t.any (·.1 == k) = true := by
        simp only [List.any_cons] at h
        simpa [h1] using h
      simp only [List.map_cons]
      rw [if_neg (by simp [hk])]
      simp only [dictGet, h1, Bool.false_eq_true, if_false]
      exact ih h2

/-- A key no entry carries looks up to `none`. -/
theorem dictGet_eq_none_of_not_any (d : Dict) (k : String)
    (h : d.any (·.1 == k) = false) : dictGet d k = none := by
  induction d with
  | nil => rfl
  | cons hd t ih =>
    obtain ⟨a, b⟩ := hd
    simp only [List.any_cons, Bool.or_eq_false_iff] at h
    simp only [dictGet, h.1, Bool.false_eq_true, if_false]
    exact ih h.2

/-- Looking up after appending a single pair. -/
theorem dictGet_append_single (d : Dict) (k v k' : String) :
    dictGet (d ++ [(k, v)]) k' =
      match dictGet d k' with
      | some w => some w
      | none => if k == k' then some v else none := by
  induction d with
  | nil => simp [dictGet]
  | cons hd t ih =>
    obtain ⟨a, b⟩ := hd
    cases ha : (a == k') with
    | true => simp [dictGet, ha]
    | false => simp [dictGet, ha, ih]

/-- The Python dictionary law: after `d[k] = v`, looking up `k'` gives `v`
for `k' = k` and the old answer otherwise. -/
theorem dictGet_dictSet (d : Dict) (k v k' : String) :
    dictGet (dictSet d k v) k' = if k' = k then some v else dictGet d k' := by
  simp only [dictSet]
  by_cases hany : d.any (·.1 == k) = true
  · rw [if_pos hany]
    by_cases hk : k' = k
    · subst hk
      rw [dictGet_replace_eq d k' v hany, if_pos rfl]
    · rw [dictGet_replace_ne d k v k' hk, if_neg hk]
  · have hany' : d.any (·.1 == k) = false := by
      cases hb : d.any (·.1 == k) with
      | true => exact absurd hb hany
      | false => rfl
    rw [if_neg (by simp [hany'])]
    rw [dictGet_append_single]
    by_cases hk : k' = k
    · subst hk
      rw [dictGet_eq_none_of_not_any d k' hany']
      simp
    · have hc : (k == k') = false := beq_eq_false_iff_ne.mpr (Ne.symm hk)
      cases hd : dictGet d k' with
      | none => simp [hc, hk]
      | some w => simp [hk]

/-- BOLT steps don't survive the stage projection. -/
theorem filter_stageMarker_boltStep (l : List FlatBoltEvent) :
    (l.map FlatEvent.boltStep).filter stageMarker = [] := by
  induction l with
  | nil => rfl
  | cons h t ih => simp [List.filter_cons, stageMarker, ih]

/-- **C3**: with `--pgo` (and therefore without `--build-stage1-only`),
`do_multistage_build` runs exactly stages 1, 2, 3 in that order; stage 2 is
configured with `LLVM_BUILD_INSTRUMENTED=IR`; the PGO profiles are
generated immediately after the stage-2 build; the final stage is 3, whose
cmake defines point `LLVM_PROFDATA_FILE` at the merged profile in the build
folder.  Without `--pgo` the final stage is 2 (and only stages 1, 2 run);
with `--build-stage1-only` it is 1 (and only stage 1 runs). -/
theorem C3_pgo_multistage_pipeline :
    (∀ a : Args, a.build_stage1_only = false → a.pgo ≠ [] →
        get_final_stage a = 3 ∧
          (∀ p1 p2 : Bool,
            (do_multistage_build a p1 p2).filter stageMarker =
              [FlatEvent.ninjaBuild 1, FlatEvent.ninjaBuild 2,
               FlatEvent.generatePgoProfiles, FlatEvent.ninjaBuild 3] ∧
            [FlatEvent.mkdirStage 1, FlatEvent.cmakeConfigure 1, FlatEvent.ninjaBuild 1,
             FlatEvent.mkdirStage 2, FlatEvent.cmakeConfigure 2, FlatEvent.ninjaBuild 2,
             FlatEvent.generatePgoProfiles,
             FlatEvent.mkdirStage 3, FlatEvent.cmakeConfigure 3, FlatEvent.ninjaBuild 3]
              <+: do_multistage_build a p1 p2) ∧
          ∀ (dirs : Dirs) (env : FlatEnv),
            dictGet (stage_specific_cmake_defines a dirs env 2)
                "LLVM_BUILD_INSTRUMENTED" = some "IR" ∧
              dictGet (stage_specific_cmake_defines a dirs env 3)
                "LLVM_PROFDATA_FILE" = some (dirs.build_folder ++ "/profdata.prof")) ∧
      (∀ a : Args, a.build_stage1_only = false → a.pgo = [] →
        get_final_stage a = 2 ∧
          ∀ p1 p2 : Bool,
            (do_multistage_build a p1 p2).filter stageMarker =
              [FlatEvent.ninjaBuild 1, FlatEvent.ninjaBuild 2]) ∧
      ∀ a : Args, a.build_stage1_only = true →
        get_final_stage a = 1 ∧
          ∀ p1 p2 : Bool,
            (do_multistage_build a p1 p2).filter stageMarker =
              [FlatEvent.ninjaBuild 1] := by
  refine ⟨fun a hbs hp => ?_, fun a hbs hp => ?_, fun a hbs => ?_⟩
  · have hpe : a.pgo.isEmpty = false := by
      cases hl : a.pgo with
      | nil => exact absurd hl hp
      | cons x xs => rfl
    have hf : get_final_stage a = 3 := by simp [get_final_stage, hbs, hpe]
    have hs1 : should_install_toolchain a 1 = false := by
      simp [should_install_toolchain, hf]
    have hs2 : should_install_toolchain a 2 = false := by
      simp [should_install_toolchain, hf]
    have hs3 : should_install_toolchain a 3 = true := by
      simp [should_install_toolchain, hf, hbs]
    have hi1 : instrumented_stage a 1 = false := by simp [instrumented_stage]
    have hi2 : instrumented_stage a 2 = true := by simp [instrumented_stage, hpe]
    have hi3 : instrumented_stage a 3 = false := by simp [instrumented_stage]
    have hb2 : bootstrap_stage a 2 = false := by simp [bootstrap_stage]
    have hb3 : bootstrap_stage a 3 = false := by simp [bootstrap_stage]
    refine ⟨hf, fun p1 p2 => ⟨?_, ?_⟩, fun dirs env => ⟨?_, ?_⟩⟩
    · simp only [do_multistage_build, invoke_ninja_events, hbs, hpe, hs1, hs2, hs3,
        hf, hi1, hi2, hi3, Bool.not_false, if_true, Bool.false_eq_true, if_false]
      simp [List.filter_append, List.filter_cons, stageMarker,
        apply_ite (List.filter stageMarker), filter_stageMarker_boltStep,
        hi1, hi2, hi3]
    · rw [List.prefix_iff_eq_take]
      have e1 : ((1 : Nat) == 3) = false := rfl
      have e2 : ((2 : Nat) == 3) = false := rfl
      simp only [do_multistage_build, invoke_ninja_events, hbs, hpe, hs1, hs2, hs3,
        hf, hi1, hi2, hi3, e1, e2, Bool.not_false, if_true, Bool.false_eq_true,
        if_false, Bool.false_and, Bool.true_and, List.map_cons, List.map_nil,
        List.flatten_cons, List.flatten_nil, List.append_nil, List.cons_append,
        List.nil_append, List.append_assoc]
      rfl
    · simp only [stage_specific_cmake_defines, hb2, hi2, hf, Bool.false_eq_true,
        if_false, if_true]
      simp [dictGet_dictSet, apply_ite (fun d => dictGet d "LLVM_BUILD_INSTRUMENTED")]
    · simp only [stage_specific_cmake_defines, hb3, hi3, hf, hpe, Bool.false_eq_true,
        if_false, if_true]
      cases hl : a.lto <;>
        simp [dictGet_dictSet, apply_ite (fun d => dictGet d "LLVM_PROFDATA_FILE")]
  · have hpe : a.pgo.isEmpty = true := by simp [hp]
    have hf : get_final_stage a = 2 := by simp [get_final_stage, hbs, hpe]
    have hs1 : should_install_toolchain a 1 = false := by
      simp [should_install_toolchain, hf]
    have hs2 : should_install_toolchain a 2 = true := by
      simp [should_install_toolchain, hf, hbs]
    have hi1 : instrumented_stage a 1 = false := by simp [instrumented_stage]
    have hi2 : instrumented_stage a 2 = false := by simp [instrumented_stage, hpe]
    refine ⟨hf, fun p1 p2 => ?_⟩
    simp only [do_multistage_build, invoke_ninja_events, hbs, hpe, hs1, hs2,
      hf, hi1, hi2, Bool.not_false, if_true, Bool.false_eq_true, if_false]
    simp [List.filter_append, List.filter_cons, stageMarker,
      apply_ite (List.filter stageMarker), filter_stageMarker_boltStep, hi1, hi2]
  · have hf : get_final_stage a = 1 := by simp [get_final_stage, hbs]
    have hs1 : should_install_toolchain a 1 =
        (!(a.build_stage1_only && !a.install_stage1_only)) := by
      simp only [should_install_toolchain, hf]
      cases hio : a.install_stage1_only <;> simp [hbs, hio]
    have hi1 : instrumented_stage a 1 = false := by simp [instrumented_stage]
    refine ⟨hf, fun p1 p2 => ?_⟩
    simp only [do_multistage_build, invoke_ninja_events, hbs, hs1,
      hf, hi1, Bool.not_true, Bool.false_eq_true, if_false]
    cases hio : a.install_stage1_only <;>
      simp [List.filter_append, List.filter_cons, stageMarker,
        apply_ite (List.filter stageMarker), filter_stageMarker_boltStep, hbs, hio,
        hi1]

/-- Witness for **C8** at a concrete machine string. -/
theorem C8_host_target_tables_agree_witness :
    get_host_llvm_target "riscv64" = LLVMBuilder.host_target "riscv64" :=
  C8_host_target_tables_agree "riscv64"

/-- Witness for **C9**: version 16.0.0 builds. -/
theorem C9_s390_version_gate_witness :
    S390Event.kernelBuild ∈ S390KernelBuilder.build (16, 0, 0) :=
  (C9_s390_version_gate.1 (16, 0, 0)).mpr (Or.inl (by norm_num))

/-- Witness for **C1** (amended): a run with one applied patch and one
already-applied patch completes. -/
theorem C1_amended_patch_loop_witness :
    ∃ evs, LinuxSourceManager.applyPatches
        [("0001-first.patch", { returncode := 0, stdout := "" }),
         ("0002-second.patch",
          { returncode := 1,
            stdout := "Reversed (or previously applied) patch detected" })]
      = .ok evs :=
  (C1_amended_patch_loop _).mpr (by decide)

/-- Witness for **C4**: with `perf` available and working, sampling is
selected; with `perf` missing, the instrumentation steps run. -/
theorem C4_bolt_profile_mode_witness :
    can_use_perf_flat true true = true ∧
      BoltEvent.instrumentBinary ∈ LLVMBuilder.bolt_clang
        { perf_on_path := false, perf_record_ok := true } :=
  ⟨(C4_bolt_profile_mode.1 true true).1.mpr ⟨rfl, rfl⟩,
    ((C4_bolt_profile_mode.2
      { perf_on_path := false, perf_record_ok := true }).2.2 rfl).1⟩

/-- Witness for **C6**: a concrete BOLT-enabled `LLVMBuilder.build` run puts
every BOLT step between the `ninja` build and the `ninja install`. -/
theorem C6_bolt_is_optional_and_post_build_witness :
    (3 : Nat) = get_final_stage { pgo := ["kernel-defconfig"] } ∧
      (List.filter classBoltRelated
          [LLVMEvent.ninjaBuild ["all"],
           LLVMEvent.printDuration,
           LLVMEvent.boltStep (BoltEvent.printHeader BoltMode.instrumentation),
           LLVMEvent.boltStep BoltEvent.instrumentBinary,
           LLVMEvent.boltStep BoltEvent.setBoltInstrumentation,
           LLVMEvent.boltStep BoltEvent.runWorkload,
           LLVMEvent.boltStep BoltEvent.mergeFdata,
           LLVMEvent.boltStep BoltEvent.optimize,
           LLVMEvent.boltStep BoltEvent.replaceBinary,
           LLVMEvent.boltStep BoltEvent.unlinkInstBinary,
           LLVMEvent.ninjaInstall ["install"],
           LLVMEvent.createGitignore]) =
        [LLVMEvent.ninjaBuild ["all"],
         LLVMEvent.boltStep (BoltEvent.printHeader BoltMode.instrumentation),
         LLVMEvent.boltStep BoltEvent.instrumentBinary,
         LLVMEvent.boltStep BoltEvent.setBoltInstrumentation,
         LLVMEvent.boltStep BoltEvent.runWorkload,
         LLVMEvent.boltStep BoltEvent.mergeFdata,
         LLVMEvent.boltStep BoltEvent.optimize,
         LLVMEvent.boltStep BoltEvent.replaceBinary,
         LLVMEvent.boltStep BoltEvent.unlinkInstBinary,
         LLVMEvent.ninjaInstall ["install"]] :=
  ⟨C6_bolt_is_optional_and_post_build.2.1 { pgo := ["kernel-defconfig"] } 3 (by decide),
   by
    have h := C6_bolt_is_optional_and_post_build.2.2.2.1
      { folders_build := some "/root/build", build_ninja_exists := true,
        bolt := true, bolt_builder_set := true,
        folders_install := some "/root/install" }
      { perf_on_path := false, perf_record_ok := false }
      _ rfl
    simpa using h⟩

/-- Witness for **C3**: `--pgo kernel-defconfig` at concrete folders. -/
theorem C3_pgo_multistage_pipeline_witness :
    get_final_stage { pgo := ["kernel-defconfig"] } = 3 ∧
      (do_multistage_build { pgo := ["kernel-defconfig"] } false false).filter
          stageMarker =
        [FlatEvent.ninjaBuild 1, FlatEvent.ninjaBuild 2,
         FlatEvent.generatePgoProfiles, FlatEvent.ninjaBuild 3] ∧
      dictGet
          (stage_specific_cmake_defines { pgo := ["kernel-defconfig"] } {} {} 2)
          "LLVM_BUILD_INSTRUMENTED" = some "IR" := by
  have h := C3_pgo_multistage_pipeline.1 { pgo := ["kernel-defconfig"] } rfl
    (by decide)
  exact ⟨h.1, (h.2.1 false false).1, (h.2.2 {} {}).1⟩

end TcBuild
